import Mathlib

/-!
Verification of the Local Event Notifier core (src/main.py).

The program is embedded shallowly: Python strings are Lean `String`s and the
Python string primitives used by the code (`str.lower`, `str.strip`,
`str.split(',')`, substring `in`) are given structurally recursive Lean
definitions over `List Char`.  Effectful collaborators (the filesystem record,
the process environment, the HTTP fetch, the SMTP session, the Flask request)
are passed explicitly as values, so every function of the program becomes a
pure Lean function of its inputs.
-/

/-- Lowercase a single character, as Python str.lower does on ASCII letters. -/
def lowerChar (c : Char) : Char :=
  if 'A' ≤ c ∧ c ≤ 'Z' then Char.ofNat (c.toNat + 32) else c

/-- Lowercase every character of a string (Python str.lower). -/
def lowerStr (s : String) : String :=
  ⟨s.data.map lowerChar⟩

/-- Strip leading and trailing whitespace (Python str.strip). -/
def stripStr (s : String) : String :=
  ⟨((s.data.dropWhile Char.isWhitespace).reverse.dropWhile Char.isWhitespace).reverse⟩

/-- Does the second list occur as a prefix of the first? -/
def prefixOfChars : List Char → List Char → Bool
  | _, [] => true
  | [], _ :: _ => false
  | c :: cs, d :: ds => c == d && prefixOfChars cs ds

/-- Does the needle occur as a contiguous substring of the hay
(Python `needle in hay` on strings)? -/
def containsSub : List Char → List Char → Bool
  | [], needle => needle.isEmpty
  | c :: cs, needle => prefixOfChars (c :: cs) needle || containsSub cs needle

/-- Substring containment lifted to strings. -/
def strContains (hay needle : String) : Bool :=
  containsSub hay.data needle.data

/-- Split a character list at each comma (Python str.split with separator ","). -/
def splitCommaChars : List Char → List (List Char)
  | [] => [[]]
  | c :: rest =>
    if c = ',' then [] :: splitCommaChars rest
    else
      match splitCommaChars rest with
      | [] => [[c]]
      | h :: t => (c :: h) :: t

/-- Split a string on commas (Python s.split(",")). -/
def splitComma (s : String) : List String :=
  (splitCommaChars s.data).map (fun cs => ⟨cs⟩)

/-- Join a list of strings with the given separator (Python sep.join). -/
def joinStr (sep : String) : List String → String
  | [] => ""
  | [s] => s
  | s :: rest => s ++ sep ++ joinStr sep rest

/-- The comprehension `[kw.strip() for kw in s.split(",") if kw.strip()]`
used by the program wherever a comma-separated keyword string is parsed. -/
def splitTrimKeywords (s : String) : List String :=
  (splitComma s).filterMap (fun kw =>
    if stripStr kw != "" then some (stripStr kw) else none)

/-- check_keywords from src/main.py: collect the stripped keywords whose
lowercased stripped form occurs in the lowercased text.  The Python loop
appends conditionally, which is List.filterMap; `text.lower()` is hoisted in
the source purely for efficiency. -/
def check_keywords (text : String) (keywords : List String) : List String :=
  keywords.filterMap (fun keyword =>
    if (stripStr keyword != "") && strContains (lowerStr text) (lowerStr (stripStr keyword))
    then some (stripStr keyword) else none)

/-- The process environment variables read by the program. -/
structure Env where
  default_url : String
  default_keywords : String
  sender_email : String
  sender_password : String
  receiver_email : String
deriving DecidableEq

/-- The durable config.json record: save_config writes exactly these two
fields and nothing else. -/
structure PersistedConfig where
  url : String
  keywords : List String
deriving DecidableEq

/-- The in-memory configuration dict as returned by load_config. -/
structure Config where
  url : String
  keywords : List String
  sender_email : String
  sender_password : String
  receiver_email : String
deriving DecidableEq

/-- save_config from src/main.py: the persisted record keeps only the url and
keywords fields of the given configuration; secret fields are dropped. -/
def save_config (config : Config) : PersistedConfig :=
  { url := config.url, keywords := config.keywords }

/-- load_config from src/main.py.  `file` is the current content of
config.json (`none` when the file is absent; in that case the source also
persists the defaults, which does not affect the returned value modelled
here).  Empty persisted fields fall back to DEFAULT_URL / DEFAULT_KEYWORDS
from the environment; the secret fields always come from the environment. -/
def load_config (file : Option PersistedConfig) (env : Env) : Config :=
  let config := match file with
    | some c => c
    | none => { url := "", keywords := [] }
  { url := if config.url = "" then env.default_url else config.url,
    keywords :=
      if config.keywords.isEmpty && (env.default_keywords != "")
      then splitTrimKeywords env.default_keywords
      else config.keywords,
    sender_email := env.sender_email,
    sender_password := env.sender_password,
    receiver_email := env.receiver_email }

/-- One jsonified outcome of a check.  `found_keywords = none` models a JSON
response object that carries no found_keywords key at all (the error
responses of the source), as opposed to `some []`. -/
structure CheckResult where
  status : String
  message : String
  found_keywords : Option (List String)
deriving DecidableEq

/-- One run of _perform_check, together with which pipeline stages the control
flow reached. -/
structure CheckTrace where
  result : CheckResult
  fetchCalled : Bool
  matchCalled : Bool
  emailCalled : Bool
deriving DecidableEq

/-- Effective url resolution of _perform_check:
`request.form.get("url", config["url"]).strip()`.  The stored value is used
only when the form has no url key at all (`none`). -/
def effectiveUrl (formUrl : Option String) (configUrl : String) : String :=
  stripStr (formUrl.getD configUrl)

/-- Effective keyword resolution of _perform_check: the form value (or, only
when the form has no keywords key, the stored list re-joined with commas) is
split on commas, stripped, and empty entries dropped. -/
def effectiveKeywords (formKeywords : Option String) (configKeywords : List String) :
    List String :=
  splitTrimKeywords (formKeywords.getD (joinStr "," configKeywords))

/-- _perform_check from src/main.py, over explicit collaborators: `file` is
the config.json content, `env` the process environment, `formUrl` and
`formKeywords` the optional request form fields, `fetched` the value returned
by scrape_webpage for the effective url (`none` models the scrape swallowing
an exception and returning None), and `emailSends` the value send_email would
return.  Both routes that call it are POST routes, so the POST branch of the
source is the one modelled. -/
def _perform_check (file : Option PersistedConfig) (env : Env)
    (formUrl formKeywords : Option String)
    (fetched : Option String) (emailSends : Bool) : CheckTrace :=
  let config := load_config file env
  let url := effectiveUrl formUrl config.url
  let keywords := effectiveKeywords formKeywords config.keywords
  if url = "" then
    { result :=
        { status := "error", message := "No URL configured", found_keywords := none },
      fetchCalled := false, matchCalled := false, emailCalled := false }
  else if keywords = [] then
    { result :=
        { status := "error", message := "No keywords configured", found_keywords := none },
      fetchCalled := false, matchCalled := false, emailCalled := false }
  else if config.sender_email = "" ∨ config.sender_password = "" ∨
      config.receiver_email = "" then
    { result :=
        { status := "error",
          message := "Email configuration incomplete - check your secrets",
          found_keywords := none },
      fetchCalled := false, matchCalled := false, emailCalled := false }
  else
    match fetched with
    | none =>
      { result :=
          { status := "error",
            message := "Failed to scrape webpage: " ++ url,
            found_keywords := none },
        fetchCalled := true, matchCalled := false, emailCalled := false }
    | some text =>
      let found_keywords := check_keywords text keywords
      if found_keywords ≠ [] then
        if emailSends then
          { result :=
              { status := "success",
                message := "Keywords found and email sent: " ++ joinStr ", " found_keywords,
                found_keywords := some found_keywords },
            fetchCalled := true, matchCalled := true, emailCalled := true }
        else
          { result :=
              { status := "warning",
                message := "Keywords found but email failed: " ++ joinStr ", " found_keywords,
                found_keywords := some found_keywords },
            fetchCalled := true, matchCalled := true, emailCalled := true }
      else
        { result :=
            { status := "info", message := "No keywords found on the webpage",
              found_keywords := some [] },
          fetchCalled := true, matchCalled := true, emailCalled := false }

/-- Outcome of the token-protected /check route wrapper: either an early JSON
refusal with its HTTP status code, or the point where _perform_check is
invoked. -/
inductive CheckOutcome where
  | refused (httpCode : Nat) (message : String)
  | performed
deriving DecidableEq

/-- Python `a or b` on two optional strings: the first operand when it is a
non-None, non-empty string, otherwise the second. -/
def orTruthy (a b : Option String) : Option String :=
  match a with
  | some s => if s = "" then b else some s
  | none => b

/-- The check route from src/main.py: `envToken` is os.environ.get of
CHECK_TOKEN (`none` when unset), `headerToken` the X-Check-Token request
header and `queryToken` the token query argument.  Python `if not check_token`
treats an unset and an empty CHECK_TOKEN alike. -/
def check (envToken headerToken queryToken : Option String) : CheckOutcome :=
  match envToken with
  | none => .refused 500 "CHECK_TOKEN not configured"
  | some check_token =>
    if check_token = "" then .refused 500 "CHECK_TOKEN not configured"
    else
      match orTruthy headerToken queryToken with
      | none => .refused 401 "Unauthorized - invalid or missing token"
      | some provided_token =>
        if provided_token = "" ∨ provided_token ≠ check_token
        then .refused 401 "Unauthorized - invalid or missing token"
        else .performed

/-- The outcome of each network step of the SMTP session opened by
send_email, in the order the source performs them; `Except.error e` models
that step raising an exception with description `e`. -/
structure SmtpSession where
  connect : Except String Unit
  starttls : Except String Unit
  login : Except String Unit
  sendmail : Except String Unit
  quit : Except String Unit

/-- send_email from src/main.py: the try-block runs the SMTP steps in
sequence, an exception at any step aborts the rest, and the except-block
collapses every exception to the return value False; True is returned only
when the whole sequence ran. -/
def send_email (s : SmtpSession) : Bool :=
  match (do s.connect; s.starttls; s.login; s.sendmail; s.quit : Except String Unit) with
  | .ok _ => true
  | .error _ => false

/-- The config sub-object of the /status JSON response.  It has no password
field. -/
structure StatusConfigView where
  url : String
  keywords : List String
  sender_email : String
  receiver_email : String
deriving DecidableEq

/-- The /status JSON response. -/
structure StatusResponse where
  url_configured : Bool
  keywords_configured : Bool
  email_configured : Bool
  config : StatusConfigView
deriving DecidableEq

/-- The status route from src/main.py: loads the configuration and reports
which parts are configured; the sender password influences only the
email_configured flag, through its truthiness. -/
def status (file : Option PersistedConfig) (env : Env) : StatusResponse :=
  let config := load_config file env
  { url_configured := config.url != "",
    keywords_configured := !config.keywords.isEmpty,
    email_configured :=
      (config.sender_email != "") && (config.sender_password != "") &&
        (config.receiver_email != ""),
    config :=
      { url := config.url,
        keywords := config.keywords,
        sender_email := if config.sender_email != "" then config.sender_email
          else "Not configured",
        receiver_email := if config.receiver_email != "" then config.receiver_email
          else "Not configured" } }

/-- A concrete environment with the mail secrets set and no defaults, for
witnesses. -/
def envSecrets : Env :=
  { default_url := "", default_keywords := "",
    sender_email := "sender@example.com", sender_password := "pw",
    receiver_email := "receiver@example.com" }

/-- A concrete environment with every variable unset, for witnesses. -/
def envUnset : Env :=
  { default_url := "", default_keywords := "",
    sender_email := "", sender_password := "", receiver_email := "" }

/-- Conditionally appending `f x` for the `x` satisfying `p` is filtering then
mapping. -/
theorem filterMap_if_eq_map_filter {α β : Type} (p : α → Bool) (f : α → β) (l : List α) :
    l.filterMap (fun x => if p x then some (f x) else none) = (l.filter p).map f := by
  induction l with
  | nil => rfl
  | cons a l ih =>
    rw [List.filterMap_cons, List.filter_cons]
    cases h : p a <;> simp [h, ih]

/-- prefixOfChars decides list-prefix. -/
theorem prefixOfChars_iff (l n : List Char) :
    prefixOfChars l n = true ↔ ∃ t, l = n ++ t := by
  induction n generalizing l with
  | nil => simp [prefixOfChars]
  | cons d ds ih =>
    cases l with
    | nil => simp [prefixOfChars]
    | cons c cs =>
      simp only [prefixOfChars, Bool.and_eq_true, beq_iff_eq, ih]
      constructor
      · rintro ⟨rfl, t, rfl⟩
        exact ⟨t, rfl⟩
      · rintro ⟨t, h⟩
        injection h with h1 h2
        exact ⟨h1, t, h2⟩

/-- containsSub decides contiguous-substring occurrence. -/
theorem containsSub_iff (hay needle : List Char) :
    containsSub hay needle = true ↔ ∃ pre post, hay = pre ++ needle ++ post := by
  induction hay with
  | nil =>
    simp only [containsSub, List.isEmpty_iff]
    constructor
    · rintro rfl
      exact ⟨[], [], rfl⟩
    · rintro ⟨pre, post, h⟩
      rcases List.append_eq_nil.mp (List.append_eq_nil.mp h.symm).1 with ⟨-, h2⟩
      exact h2
  | cons c cs ih =>
    simp only [containsSub, Bool.or_eq_true, prefixOfChars_iff, ih]
    constructor
    · rintro (⟨t, h⟩ | ⟨pre, post, h⟩)
      · exact ⟨[], t, by simpa using h⟩
      · exact ⟨c :: pre, post, by simp [h]⟩
    · rintro ⟨pre, post, h⟩
      cases pre with
      | nil => exact Or.inl ⟨post, by simpa using h⟩
      | cons p ps =>
        injection h with h1 h2
        exact Or.inr ⟨ps, post, h2⟩

/-- A string occurs in any string it terminates. -/
theorem strContains_append_right (a b : String) : strContains (a ++ b) b = true := by
  apply (containsSub_iff _ _).mpr
  exact ⟨a.data, [], by simp⟩

/-- C1: check_keywords T K returns exactly the stripped forms of the entries
of K that are non-empty after stripping and whose stripped lowercase form is a
substring of T's lowercase form, in the order they appear in K; moreover every
returned entry is non-empty and its lowercase form really occurs contiguously
inside T's lowercase form. -/
theorem check_keywords_matches_spec (T : String) (K : List String) :
    check_keywords T K =
      (K.filter (fun kw =>
        (stripStr kw != "") && strContains (lowerStr T) (lowerStr (stripStr kw)))).map stripStr
    ∧ ∀ r ∈ check_keywords T K, r ≠ "" ∧
        ∃ pre post, (lowerStr T).data = pre ++ (lowerStr r).data ++ post := by
  have heq : check_keywords T K =
      (K.filter (fun kw =>
        (stripStr kw != "") && strContains (lowerStr T) (lowerStr (stripStr kw)))).map stripStr :=
    filterMap_if_eq_map_filter
      (fun kw => (stripStr kw != "") && strContains (lowerStr T) (lowerStr (stripStr kw)))
      stripStr K
  refine ⟨heq, ?_⟩
  intro r hr
  rw [heq] at hr
  rcases List.mem_map.mp hr with ⟨kw, hkw, rfl⟩
  have hfil := List.of_mem_filter hkw
  have h1 : (stripStr kw != "") = true := (Bool.and_eq_true _ _ ▸ hfil).1
  have h2 : strContains (lowerStr T) (lowerStr (stripStr kw)) = true :=
    (Bool.and_eq_true _ _ ▸ hfil).2
  refine ⟨by simpa using h1, ?_⟩
  exact (containsSub_iff _ _).mp h2

/-- Witness for C1 at a concrete text and keyword list. -/
theorem check_keywords_matches_spec_witness :
    check_keywords "Big Sale Today" ["sale", " evt "] = ["sale"] ∧
      ∃ pre post, (lowerStr "Big Sale Today").data = pre ++ (lowerStr "sale").data ++ post :=
  ⟨by decide,
   ((check_keywords_matches_spec "Big Sale Today" ["sale", " evt "]).2 "sale" (by decide)).2⟩

/-- C6: saving a configuration with a non-empty url and a non-empty keyword
list and loading it back yields exactly that url and keyword list, with the
three secret fields taken from the environment. -/
theorem save_load_round_trip (env : Env) (u : String) (kws : List String)
    (se sp re : String) (hu : u ≠ "") (hk : kws ≠ []) :
    load_config
        (some (save_config
          { url := u, keywords := kws,
            sender_email := se, sender_password := sp, receiver_email := re }))
        env
      = { url := u, keywords := kws,
          sender_email := env.sender_email,
          sender_password := env.sender_password,
          receiver_email := env.receiver_email } := by
  simp [load_config, save_config, hu, List.isEmpty_iff, hk]

/-- Witness for C6: round-trip of url "u" and keywords ["a", "b"]. -/
theorem save_load_round_trip_witness :
    load_config
        (some (save_config
          { url := "u", keywords := ["a", "b"],
            sender_email := "x@y", sender_password := "pw", receiver_email := "z@y" }))
        { default_url := "http://d", default_keywords := "d1,d2",
          sender_email := "s@e", sender_password := "sp", receiver_email := "r@e" }
      = { url := "u", keywords := ["a", "b"],
          sender_email := "s@e", sender_password := "sp", receiver_email := "r@e" } :=
  save_load_round_trip _ "u" ["a", "b"] "x@y" "pw" "z@y"
    (by decide) (by decide)

/-- C7: the persisted record is exactly the url and keywords fields — it is
unchanged by any values of the secret fields passed in — and the secret
fields of a loaded configuration come only from the environment, whatever the
persisted record holds. -/
theorem save_drops_secrets_load_env_secrets (c : Config) (s p r : String)
    (file : Option PersistedConfig) (env : Env) :
    save_config { c with sender_email := s, sender_password := p, receiver_email := r }
        = save_config c
    ∧ save_config c = { url := c.url, keywords := c.keywords }
    ∧ (load_config file env).sender_email = env.sender_email
    ∧ (load_config file env).sender_password = env.sender_password
    ∧ (load_config file env).receiver_email = env.receiver_email :=
  ⟨rfl, rfl, rfl, rfl, rfl⟩

/-- C2: when the effective configuration is complete, the fetch succeeded and
the matched-keyword list is non-empty, the notifier is called; on a
successful send the result is a success result carrying the matched list, and
on a failed send a warning result whose message reports the email failure,
with the matched list still carried. -/
theorem perform_check_match_notifies (file : Option PersistedConfig) (env : Env)
    (formUrl formKeywords : Option String) (text : String) (emailSends : Bool)
    (hu : effectiveUrl formUrl (load_config file env).url ≠ "")
    (hk : effectiveKeywords formKeywords (load_config file env).keywords ≠ [])
    (hse : (load_config file env).sender_email ≠ "")
    (hsp : (load_config file env).sender_password ≠ "")
    (hre : (load_config file env).receiver_email ≠ "")
    (hfound :
      check_keywords text (effectiveKeywords formKeywords (load_config file env).keywords)
        ≠ []) :
    (_perform_check file env formUrl formKeywords (some text) emailSends).emailCalled = true
    ∧ (emailSends = true →
        (_perform_check file env formUrl formKeywords (some text) emailSends).result =
          { status := "success",
            message := "Keywords found and email sent: " ++ joinStr ", "
              (check_keywords text
                (effectiveKeywords formKeywords (load_config file env).keywords)),
            found_keywords :=
              some (check_keywords text
                (effectiveKeywords formKeywords (load_config file env).keywords)) })
    ∧ (emailSends = false →
        (_perform_check file env formUrl formKeywords (some text) emailSends).result =
          { status := "warning",
            message := "Keywords found but email failed: " ++ joinStr ", "
              (check_keywords text
                (effectiveKeywords formKeywords (load_config file env).keywords)),
            found_keywords :=
              some (check_keywords text
                (effectiveKeywords formKeywords (load_config file env).keywords)) }) := by
  have hsec : ¬((load_config file env).sender_email = "" ∨
      (load_config file env).sender_password = "" ∨
      (load_config file env).receiver_email = "") := by
    simp [hse, hsp, hre]
  have hpc : _perform_check file env formUrl formKeywords (some text) emailSends =
      (if emailSends then
        { result :=
            { status := "success",
              message := "Keywords found and email sent: " ++ joinStr ", "
                (check_keywords text
                  (effectiveKeywords formKeywords (load_config file env).keywords)),
              found_keywords :=
                some (check_keywords text
                  (effectiveKeywords formKeywords (load_config file env).keywords)) },
          fetchCalled := true, matchCalled := true, emailCalled := true }
      else
        { result :=
            { status := "warning",
              message := "Keywords found but email failed: " ++ joinStr ", "
                (check_keywords text
                  (effectiveKeywords formKeywords (load_config file env).keywords)),
              found_keywords :=
                some (check_keywords text
                  (effectiveKeywords formKeywords (load_config file env).keywords)) },
          fetchCalled := true, matchCalled := true, emailCalled := true }) := by
    simp only [_perform_check, if_neg hu, if_neg hk, if_neg hsec, if_pos hfound]
  rw [hpc]
  cases emailSends with
  | false => exact ⟨rfl, fun h => absurd h (by decide), fun _ => rfl⟩
  | true => exact ⟨rfl, fun _ => rfl, fun h => absurd h (by decide)⟩

/-- Witness for C2: the spec scenario, with a successful send. -/
theorem perform_check_match_notifies_witness :
    (_perform_check (some { url := "https://example.com", keywords := ["sale", "event"] })
        envSecrets none none (some "Big Sale Today") true).emailCalled = true :=
  (perform_check_match_notifies
    (some { url := "https://example.com", keywords := ["sale", "event"] })
    envSecrets none none "Big Sale Today" true
    (by decide) (by decide) (by decide) (by decide) (by decide) (by decide)).1

/-- C3, amended: an empty effective url yields a terminal error result whose
message reports the missing URL; the error response carries no found_keywords
key (rather than an empty list), and no later stage runs. -/
theorem perform_check_empty_url (file : Option PersistedConfig) (env : Env)
    (formUrl formKeywords : Option String) (fetched : Option String) (emailSends : Bool)
    (hu : effectiveUrl formUrl (load_config file env).url = "") :
    _perform_check file env formUrl formKeywords fetched emailSends =
      { result :=
          { status := "error", message := "No URL configured", found_keywords := none },
        fetchCalled := false, matchCalled := false, emailCalled := false } := by
  simp only [_perform_check, if_pos hu]

/-- Counterexample to C3 as stated: a run with an empty effective url whose
error response does not carry an empty found_keywords list — the key is
absent. -/
theorem perform_check_empty_url_found_keywords_absent :
    (_perform_check none envUnset (some "") none none false).result.status = "error"
    ∧ (_perform_check none envUnset (some "") none none false).result.found_keywords
        ≠ some [] := by decide

/-- Witness for the amended C3 at a concrete empty-url run. -/
theorem perform_check_empty_url_witness :
    _perform_check none envUnset (some "") none none false =
      { result :=
          { status := "error", message := "No URL configured", found_keywords := none },
        fetchCalled := false, matchCalled := false, emailCalled := false } :=
  perform_check_empty_url none envUnset (some "") none none false (by decide)

/-- C4, amended: when validation passes and the fetch fails (scrape_webpage
returns None), the result is a terminal error whose message names the url and
the Match and Notify stages are never reached; a fetch that succeeds with
empty text is not an error and does reach the Match stage. -/
theorem perform_check_fetch_failure (file : Option PersistedConfig) (env : Env)
    (formUrl formKeywords : Option String) (emailSends : Bool)
    (hu : effectiveUrl formUrl (load_config file env).url ≠ "")
    (hk : effectiveKeywords formKeywords (load_config file env).keywords ≠ [])
    (hse : (load_config file env).sender_email ≠ "")
    (hsp : (load_config file env).sender_password ≠ "")
    (hre : (load_config file env).receiver_email ≠ "") :
    _perform_check file env formUrl formKeywords none emailSends =
      { result :=
          { status := "error",
            message := "Failed to scrape webpage: " ++
              effectiveUrl formUrl (load_config file env).url,
            found_keywords := none },
        fetchCalled := true, matchCalled := false, emailCalled := false }
    ∧ strContains
        ("Failed to scrape webpage: " ++ effectiveUrl formUrl (load_config file env).url)
        (effectiveUrl formUrl (load_config file env).url) = true := by
  have hsec : ¬((load_config file env).sender_email = "" ∨
      (load_config file env).sender_password = "" ∨
      (load_config file env).receiver_email = "") := by
    simp [hse, hsp, hre]
  constructor
  · simp only [_perform_check, if_neg hu, if_neg hk, if_neg hsec]
  · exact strContains_append_right _ _

/-- Counterexample to C4 as stated: a fetch that yields no content (empty
text) does not produce an error result — the Match stage runs and reports an
info result. -/
theorem perform_check_empty_page_reaches_match :
    (_perform_check (some { url := "https://example.com", keywords := ["sale"] })
        envSecrets none none (some "") true).result.status = "info"
    ∧ (_perform_check (some { url := "https://example.com", keywords := ["sale"] })
        envSecrets none none (some "") true).matchCalled = true := by decide

/-- Witness for the amended C4 at a concrete failing fetch. -/
theorem perform_check_fetch_failure_witness :
    _perform_check (some { url := "https://example.com", keywords := ["sale"] })
        envSecrets none none none true =
      { result :=
          { status := "error",
            message := "Failed to scrape webpage: " ++
              effectiveUrl none
                (load_config (some { url := "https://example.com", keywords := ["sale"] })
                  envSecrets).url,
            found_keywords := none },
        fetchCalled := true, matchCalled := false, emailCalled := false }
    ∧ strContains
        ("Failed to scrape webpage: " ++
          effectiveUrl none
            (load_config (some { url := "https://example.com", keywords := ["sale"] })
              envSecrets).url)
        (effectiveUrl none
          (load_config (some { url := "https://example.com", keywords := ["sale"] })
            envSecrets).url) = true :=
  perform_check_fetch_failure
    (some { url := "https://example.com", keywords := ["sale"] }) envSecrets none none true
    (by decide) (by decide) (by decide) (by decide) (by decide)

/-- C5, amended: the effective url and keywords are taken from the
caller-supplied form value whenever the form field is present — even when it
is empty, in which case the empty override is used (and not the stored
value); only an absent field falls back to the stored configuration, the url
stripped and the keywords re-joined with commas, split and stripped. -/
theorem effective_override_resolution (cfgUrl s skw : String) (cfgKw : List String) :
    effectiveUrl none cfgUrl = stripStr cfgUrl
    ∧ effectiveUrl (some s) cfgUrl = stripStr s
    ∧ effectiveKeywords none cfgKw = splitTrimKeywords (joinStr "," cfgKw)
    ∧ effectiveKeywords (some skw) cfgKw = splitTrimKeywords skw :=
  ⟨rfl, rfl, rfl, rfl⟩

/-- Counterexample to C5 as stated: a supplied-but-empty override does not
fall back to the stored value — the effective url becomes empty and the check
fails with the missing-URL error instead of using the stored url, and a
supplied-but-empty keywords field yields the empty list, not the stored
list. -/
theorem empty_override_does_not_fall_back :
    effectiveUrl (some "") "https://stored.example" ≠ "https://stored.example"
    ∧ (_perform_check (some { url := "https://stored.example", keywords := ["sale"] })
        envSecrets (some "") none (some "sale page") true).result.message
        = "No URL configured"
    ∧ effectiveKeywords (some "") ["sale"] ≠ ["sale"] := by decide

/-- C8: the /check wrapper refuses with HTTP 500 when no CHECK_TOKEN is
configured (unset or empty) without running the check; it refuses with HTTP
401 when the caller's token is missing or differs from the configured token;
and the check is performed exactly when the caller supplied the configured
non-empty token. -/
theorem check_token_gate (envToken headerToken queryToken : Option String) :
    ((envToken = none ∨ envToken = some "") →
      check envToken headerToken queryToken =
        .refused 500 "CHECK_TOKEN not configured")
    ∧ (∀ tok, envToken = some tok → tok ≠ "" →
        orTruthy headerToken queryToken ≠ some tok →
        check envToken headerToken queryToken =
          .refused 401 "Unauthorized - invalid or missing token")
    ∧ (check envToken headerToken queryToken = .performed ↔
        ∃ tok, envToken = some tok ∧ tok ≠ "" ∧
          orTruthy headerToken queryToken = some tok) := by
  refine ⟨?_, ?_, ?_⟩
  · rintro (rfl | rfl)
    · rfl
    · simp [check]
  · rintro tok rfl htok hne
    simp only [check]
    rw [if_neg htok]
    cases hor : orTruthy headerToken queryToken with
    | none => rfl
    | some p =>
      have hp : p ≠ tok := fun h => hne (hor.trans (by rw [h]))
      dsimp only
      rw [if_pos (Or.inr hp)]
  · constructor
    · intro hp
      cases envToken with
      | none => exact absurd hp (by simp [check])
      | some tok =>
        by_cases htok : tok = ""
        · rw [check] at hp
          rw [if_pos htok] at hp
          exact absurd hp (by simp)
        · rw [check, if_neg htok] at hp
          cases hor : orTruthy headerToken queryToken with
          | none => rw [hor] at hp; exact absurd hp (by simp)
          | some p =>
            rw [hor] at hp
            dsimp only at hp
            by_cases hpe : p = "" ∨ p ≠ tok
            · rw [if_pos hpe] at hp
              exact absurd hp (by simp)
            · push_neg at hpe
              exact ⟨tok, rfl, htok, by rw [hpe.2]⟩
    · rintro ⟨tok, rfl, htok, hor⟩
      simp [check, htok, hor]

/-- Witness for C8: a matching non-empty token lets the check run. -/
theorem check_token_gate_witness :
    check (some "sekrit") (some "sekrit") none = CheckOutcome.performed :=
  (check_token_gate (some "sekrit") (some "sekrit") none).2.2.mpr
    ⟨"sekrit", rfl, by decide, rfl⟩

/-- C9: send_email returns a Bool to its caller for every outcome of the SMTP
session — an exception at any step is swallowed and collapses to the return
value false — and it returns true exactly when every step of the session ran
without raising, in particular only when the sendmail handover succeeded. -/
theorem send_email_boolean_totality (s : SmtpSession) :
    send_email s = true ↔
      (s.connect = .ok () ∧ s.starttls = .ok () ∧ s.login = .ok () ∧
        s.sendmail = .ok () ∧ s.quit = .ok ()) := by
  obtain ⟨c, st, l, sm, q⟩ := s
  rcases c with e | u
  · simp [send_email, Bind.bind, Except.bind]
  · obtain ⟨⟩ := u
    rcases st with e | u
    · simp [send_email, Bind.bind, Except.bind]
    · obtain ⟨⟩ := u
      rcases l with e | u
      · simp [send_email, Bind.bind, Except.bind]
      · obtain ⟨⟩ := u
        rcases sm with e | u
        · simp [send_email, Bind.bind, Except.bind]
        · obtain ⟨⟩ := u
          rcases q with e | u
          · simp [send_email, Bind.bind, Except.bind]
          · obtain ⟨⟩ := u
            simp [send_email, Bind.bind, Except.bind]

/-- C10: the /status response depends on the sender password only through
whether it is empty: two environments that differ only in the non-empty value
of the password produce identical responses, so the response never carries
the password. -/
theorem status_password_noninterference (file : Option PersistedConfig) (env : Env)
    (p1 p2 : String) (h1 : p1 ≠ "") (h2 : p2 ≠ "") :
    status file { env with sender_password := p1 } =
      status file { env with sender_password := p2 } := by
  have e1 : (p1 != "") = true := by simpa using h1
  have e2 : (p2 != "") = true := by simpa using h2
  simp [status, load_config, e1, e2]

/-- Witness for C10 at two concrete passwords. -/
theorem status_password_noninterference_witness :
    status none { envSecrets with sender_password := "pw1" } =
      status none { envSecrets with sender_password := "pw2" } :=
  status_password_noninterference none envSecrets "pw1" "pw2" (by decide) (by decide)
